import Mathlib

/-!
Shallow embedding of the client-side staging and rendering layer of the
Medral clinical-assistant web app (src/static/script.js), together with
theorems settling the specification claims about it.

JavaScript values that may be `undefined` or `null` are modelled with
`Option` (and with the three-valued `JsOpt` where the code distinguishes
`null` from `undefined`, as the vitals table does for its CSS class).
JavaScript template-literal interpolation of a possibly-undefined value is
modelled by `jstr`, which produces the string "undefined" exactly as the
browser does; the short-circuit `x || d` idiom on strings is `jOr`, which
falls through on `undefined`, `null` and the empty string.  DOM effects
are modelled as returned HTML strings, toast notifications as returned
lists, and the loading overlay as a list of boolean toggle events.
-/

/-- Three-valued JavaScript optional: distinguishes `undefined`, `null`
and a present value, as `script.js` does for vitals entries. -/
inductive JsOpt (α : Type) where
  | undef : JsOpt α
  | null : JsOpt α
  | val : α → JsOpt α
deriving DecidableEq, Repr

/-- JavaScript truthiness of a possibly-absent string: `undefined`, `null`
and the empty string are falsy. -/
def truthyS : Option String → Bool
  | some s => !(s == "")
  | none => false

/-- JavaScript truthiness combined with a non-emptiness check, the
`x && x.length > 0` idiom used for arrays in `script.js`. -/
def nonEmptyL {α : Type} : Option (List α) → Bool
  | some l => !l.isEmpty
  | none => false

/-- Template-literal interpolation of a possibly-undefined string value:
an absent value renders as the literal text "undefined". -/
def jstr : Option String → String
  | some s => s
  | none => "undefined"

/-- The JavaScript `x || d` default idiom on strings: `undefined`, `null`
and the empty string all fall through to the default. -/
def jOr : Option String → String → String
  | some s, d => if s == "" then d else s
  | none, d => d

/-- The pattern string occurs somewhere inside `s`. -/
def occursIn (pat s : String) : Prop :=
  ∃ pre suf : String, s = pre ++ pat ++ suf

theorem occursIn_middle (pat pre suf : String) : occursIn pat (pre ++ pat ++ suf) :=
  ⟨pre, suf, rfl⟩

theorem occursIn_self (pat : String) : occursIn pat pat :=
  ⟨"", "", by simp⟩

theorem occursIn_appendL {pat s : String} (t : String) (h : occursIn pat s) :
    occursIn pat (t ++ s) := by
  obtain ⟨p, q, rfl⟩ := h
  exact ⟨t ++ p, q, by simp [String.append_assoc]⟩

theorem occursIn_cong {pat s t : String} (h : occursIn pat s) (e : s = t) :
    occursIn pat t := e ▸ h

theorem occursIn_appendR {pat s : String} (t : String) (h : occursIn pat s) :
    occursIn pat (s ++ t) := by
  obtain ⟨p, q, rfl⟩ := h
  exact ⟨p, q ++ t, by simp [String.append_assoc]⟩

/-- Boolean test that the character list `pat` is an initial segment of `s`. -/
def charsLeadWith : List Char → List Char → Bool
  | [], _ => true
  | _ :: _, [] => false
  | a :: as, b :: bs => a == b && charsLeadWith as bs

/-- Boolean substring search over character lists. -/
def charsHaveSub (pat : List Char) : List Char → Bool
  | [] => charsLeadWith pat []
  | c :: cs => charsLeadWith pat (c :: cs) || charsHaveSub pat cs

/-- Executable substring test on strings, used to evaluate concrete
renderings. -/
def strContains (s pat : String) : Bool :=
  charsHaveSub pat.data s.data

/-- The five workflow tabs of the application. -/
inductive Tab where
  | triage | reports | scribe | translator | polypharmacy
deriving DecidableEq, Repr

/-- A file as handed to `handleFileSelect`: only its declared MIME type
matters to the staging logic; `name` stands for the identity of the blob. -/
structure JsFile where
  name : String
  mimeType : String
deriving DecidableEq, Repr

/-- The `file.type.startsWith('image/')` test of `handleFileSelect`, as a
character-list comparison so that concrete instances evaluate. -/
def isImage (f : JsFile) : Bool :=
  charsLeadWith "image/".data f.mimeType.data

/-- A toast notification: message text and severity tag, as passed
to `showToast(message, type)`. -/
abbrev Toast : Type := String × String

/-- Per-tab mutable state touched by the file-staging code: the staged
file list `fileStorage[tab]` and the `disabled` flag of the tab's
process button. -/
structure TabState where
  files : List JsFile
  processDisabled : Bool
deriving DecidableEq, Repr

/-- The per-tab maximum file count: `(tab === 'translator') ? 1 : 10`. -/
def maxFilesFor (tab : Tab) : Nat :=
  if tab = Tab.translator then 1 else 10

/-- Embedding of `handleFileSelect(tab, files)`: returns the updated tab
state together with the toasts it emitted.  An empty candidate list
returns silently; an over-limit list returns with an error toast; an
accepted list replaces the staged set with its image-typed members in
order and enables the process button only when the result is non-empty. -/
def handleFileSelect (tab : Tab) (st : TabState) (files : List JsFile) :
    TabState × List Toast :=
  let maxFiles := maxFilesFor tab
  if files.length == 0 then (st, [])
  else if files.length > maxFiles then
    (st, [("Maximum " ++ toString maxFiles ++ " file(s) allowed", "error")])
  else
    let staged := files.filter isImage
    let st1 : TabState := { st with files := staged }
    let st2 : TabState :=
      if st1.files.length > 0 then { st1 with processDisabled := false } else st1
    (st2, [])

/-- The index actually used by `Array.prototype.splice(start, ...)`:
negative starts count from the end (clamped at 0), non-negative starts
are clamped at the length. -/
def spliceStart (len : Nat) (i : Int) : Nat :=
  if i < 0 then (max ((len : Int) + i) 0).toNat else min i.toNat len

/-- `l.splice(i, 1)` as a pure function: removes (at most) one element at
the effective start index. -/
def spliceRemoveOne {α : Type} (l : List α) (i : Int) : List α :=
  let s := spliceStart l.length i
  l.take s ++ l.drop (s + 1)

/-- Embedding of `removeFile(tab, index)`: splices one entry out of the
staged list and disables the process button when the list becomes empty. -/
def removeFile (st : TabState) (i : Int) : TabState :=
  let files := spliceRemoveOne st.files i
  if files.length == 0 then { files := files, processDisabled := true }
  else { st with files := files }

/-- The `vitals_extraction` object of a triage payload.  The four vital
entries are three-valued because the renderer distinguishes `null`
(rendered with the `missing` CSS class) from `undefined`; numeric values
are modelled by their interpolated decimal text. -/
structure Vitals where
  pulse : JsOpt String := JsOpt.undef
  bp : JsOpt String := JsOpt.undef
  spo2 : JsOpt String := JsOpt.undef
  temperature : JsOpt String := JsOpt.undef
  physical_signs : Option String := none
deriving DecidableEq, Repr

/-- The `physical_assessment` object of a triage payload. -/
structure Physical where
  physical_condition : Option String := none
  distress_level : Option String := none
  breathing_assessment : Option String := none
  consciousness : Option String := none
  visible_signs : Option (List String) := none
deriving DecidableEq, Repr

/-- The `triage_analysis` object of a triage payload. -/
structure TriageAnalysis where
  priority : Option String := none
  justification_english : Option String := none
  justification_hindi : Option String := none
  recommended_action : Option String := none
  key_vital_flags : Option (List String) := none
  physical_flags : Option (List String) := none
  assessment_basis : Option String := none
deriving DecidableEq, Repr

/-- One extracted lab test of a reports payload. -/
structure LabTest where
  test_name : Option String := none
  result : Option String := none
  unit : Option String := none
  reference_range : Option String := none
  status : Option String := none
deriving DecidableEq, Repr

/-- One per-test explanation of a reports payload. -/
structure Explanation where
  test_name : Option String := none
  status : Option String := none
  simple_explanation : Option String := none
  analogy : Option String := none
deriving DecidableEq, Repr

/-- The `patient_explanations` object of a reports payload. -/
structure Explanations where
  explanations : Option (List Explanation) := none
  next_steps : Option (List String) := none
  warning_signs : Option String := none
deriving DecidableEq, Repr

/-- The `transcribed_notes` object of a scribe payload. -/
structure Notes where
  chief_complaints : Option (List String) := none
  duration : Option String := none
  previous_medications : Option (List String) := none
  allergies : Option (List String) := none
  examination_findings : Option (List String) := none
deriving DecidableEq, Repr

/-- The `doctor_summary` object of a scribe payload. -/
structure Summary where
  executive_summary : Option (List String) := none
  critical_flags : Option (List String) := none
  doctor_focus_time : Option String := none
deriving DecidableEq, Repr

/-- An opaque JSON value of a translator payload, abstracted by the text
that `JSON.stringify(value, null, 2)` produces for it; the translator
renderer treats it verbatim, so no further structure is needed. -/
structure JsonBlob where
  stringified : String
deriving DecidableEq, Repr

/-- One detected medicine of a polypharmacy payload. -/
structure Medicine where
  brand_name : Option String := none
  generic_name : Option String := none
  strength : Option String := none
  form : Option String := none
  frequency : Option String := none
deriving DecidableEq, Repr

/-- The `safety_analysis` object of a polypharmacy payload. -/
structure SafetyAnalysis where
  urgency : Option String := none
  drug_interactions : Option (List String) := none
  duplicate_medications : Option (List String) := none
  safety_warnings : Option (List String) := none
  recommendation : Option String := none
deriving DecidableEq, Repr

/-- A parsed response body as `displayResults` sees it: the top-level
status discriminator and error message, plus every workflow-specific
field any of the five builders reads.  Fields a given workflow does not
use are simply absent in its payloads. -/
structure Payload where
  status : Option String := none
  error : Option String := none
  vitals_extraction : Option Vitals := none
  physical_assessment : Option Physical := none
  triage_analysis : Option TriageAnalysis := none
  extracted_tests : Option (List LabTest) := none
  patient_explanations : Option Explanations := none
  transcribed_notes : Option Notes := none
  doctor_summary : Option Summary := none
  translation : Option JsonBlob := none
  validation : Option JsonBlob := none
  medicines_extracted : Option (List Medicine) := none
  safety_analysis : Option SafetyAnalysis := none
deriving DecidableEq, Repr

/-!
Renderers.  Each `buildX` function mirrors the builder of the same name in
`script.js`; HTML template literals are reproduced with their tags, class
names, icons and visible text intact but with inter-tag indentation
collapsed to single spaces (the whitespace of the templates carries no
meaning).  A guarded `if (x) html += ...` block of the source becomes a
helper returning the block for a truthy field and `""` otherwise.
-/

/-- One entry of the vitals grid, for a label/unit pair from `vitalsMap`:
`null` and `undefined` values display "Not recorded", and `null` alone
additionally gets the `missing` CSS class. -/
def vitalItem (label unit : String) (v : JsOpt String) : String :=
  let displayValue :=
    match v with
    | JsOpt.val s => s ++ " " ++ unit
    | _ => "Not recorded"
  let missingClass := match v with | JsOpt.null => "missing" | _ => ""
  "<div class=\"vital-item\"> <span class=\"vital-label\">" ++ label ++
    "</span> <span class=\"vital-value " ++ missingClass ++ "\">" ++
    displayValue ++ "</span> </div>"

/-- The trailing `physical_signs` block of the vitals table. -/
def vitalsSigns (v : Vitals) : String :=
  if truthyS v.physical_signs then
    "<div class=\"vital-item full-width\"> <span class=\"vital-label\">👀 Physical Observations</span> <span class=\"vital-value\">" ++
      jstr v.physical_signs ++ "</span> </div>"
  else ""

/-- Embedding of `buildVitalsTable(vitals)`. -/
def buildVitalsTable : Option Vitals → String
  | none => "<p class=\"no-data\">No vitals extracted</p>"
  | some v =>
    "<div class=\"vitals-grid\">" ++
      vitalItem "💓 Pulse" "bpm" v.pulse ++
      vitalItem "🩺 Blood Pressure" "mmHg" v.bp ++
      vitalItem "🫁 SpO2" "%" v.spo2 ++
      vitalItem "🌡️ Temperature" "°C" v.temperature ++
      vitalsSigns v ++
      "</div>"

/-- The overall-condition block of the physical assessment. -/
def physCondition (p : Physical) : String :=
  if truthyS p.physical_condition then
    "<div class=\"assessment-item\"> <span class=\"assessment-label\">🩺 Overall Condition</span> <span class=\"assessment-value\">" ++
      jstr p.physical_condition ++ "</span> </div>"
  else ""

/-- The distress-level badge of the physical assessment. -/
def physDistress (p : Physical) : String :=
  if truthyS p.distress_level then
    let cls :=
      if p.distress_level = some "Severe" then "danger"
      else if p.distress_level = some "Moderate" then "warning"
      else if p.distress_level = some "Mild" then "warning"
      else "info"
    let icon :=
      if p.distress_level = some "Severe" then "🔴"
      else if p.distress_level = some "Moderate" then "🟡"
      else if p.distress_level = some "Mild" then "🟡"
      else "🟢"
    "<div class=\"assessment-item\"> <span class=\"assessment-label\">⚠️ Distress Level</span> <span class=\"assessment-badge " ++
      cls ++ "\">" ++ icon ++ " " ++ jstr p.distress_level ++ "</span> </div>"
  else ""

/-- The breathing block of the physical assessment. -/
def physBreathing (p : Physical) : String :=
  if truthyS p.breathing_assessment then
    "<div class=\"assessment-item\"> <span class=\"assessment-label\">🫁 Breathing</span> <span class=\"assessment-value\">" ++
      jstr p.breathing_assessment ++ "</span> </div>"
  else ""

/-- The consciousness badge of the physical assessment. -/
def physConsciousness (p : Physical) : String :=
  if truthyS p.consciousness then
    let cls :=
      if p.consciousness = some "alert" then "success"
      else if p.consciousness = some "drowsy" then "warning"
      else "danger"
    "<div class=\"assessment-item\"> <span class=\"assessment-label\">🧠 Consciousness</span> <span class=\"assessment-badge " ++
      cls ++ "\">" ++ jstr p.consciousness ++ "</span> </div>"
  else ""

/-- The visible-signs block of the physical assessment. -/
def physSignsList (p : Physical) : String :=
  if nonEmptyL p.visible_signs then
    "<div class=\"assessment-item full-width\"> <span class=\"assessment-label\">👀 Visible Signs</span> <div class=\"signs-list\">" ++
      String.join (((p.visible_signs).getD []).map fun sign =>
        "<span class=\"sign-badge\">" ++ sign ++ "</span>") ++
      "</div> </div>"
  else ""

/-- Embedding of `buildPhysicalAssessment(physical)`. -/
def buildPhysicalAssessment : Option Physical → String
  | none => "<p class=\"no-data\">No physical assessment available</p>"
  | some p =>
    "<div class=\"physical-assessment\">" ++
      physCondition p ++ physDistress p ++ physBreathing p ++
      physConsciousness p ++ physSignsList p ++ "</div>"

/-- The priority badge of the triage analysis: the two sequential strict
comparisons against "RED" and "GREEN" leave the "warning"/🟡 defaults for
every other (or absent) priority, and the badge text falls back to
"Unknown" via `||`. -/
def triagePriorityBadge (a : TriageAnalysis) : String :=
  let statusClass :=
    if a.priority = some "RED" then "danger"
    else if a.priority = some "GREEN" then "success"
    else "warning"
  let statusIcon :=
    if a.priority = some "RED" then "🔴"
    else if a.priority = some "GREEN" then "🟢"
    else "🟡"
  "<div class=\"priority-badge " ++ statusClass ++ "\"> <span class=\"priority-icon\">" ++
    statusIcon ++ "</span> <span class=\"priority-text\">" ++
    jOr a.priority "Unknown" ++ " Priority</span> </div>"

/-- The English justification block of the triage analysis. -/
def triageJustEn (a : TriageAnalysis) : String :=
  if truthyS a.justification_english then
    "<div class=\"justification\"> <h4>🗣️ English</h4> <p>" ++
      jstr a.justification_english ++ "</p> </div>"
  else ""

/-- The Hindi justification block of the triage analysis. -/
def triageJustHi (a : TriageAnalysis) : String :=
  if truthyS a.justification_hindi then
    "<div class=\"justification\"> <h4>🗣️ हिंदी</h4> <p>" ++
      jstr a.justification_hindi ++ "</p> </div>"
  else ""

/-- The recommended-action block of the triage analysis. -/
def triageAction (a : TriageAnalysis) : String :=
  if truthyS a.recommended_action then
    "<div class=\"action-box\"> <h4>💡 Recommended Action</h4> <p>" ++
      jstr a.recommended_action ++ "</p> </div>"
  else ""

/-- The vital-signs-concerns list of the triage analysis. -/
def triageVitalFlags (a : TriageAnalysis) : String :=
  if nonEmptyL a.key_vital_flags then
    "<div class=\"flags-list\"> <h4>⚠️ Vital Signs Concerns</h4> <ul>" ++
      String.join (((a.key_vital_flags).getD []).map fun flag =>
        "<li class=\"vital-flag\">" ++ flag ++ "</li>") ++
      "</ul> </div>"
  else ""

/-- The physical-assessment-concerns list of the triage analysis. -/
def triagePhysFlags (a : TriageAnalysis) : String :=
  if nonEmptyL a.physical_flags then
    "<div class=\"flags-list\"> <h4>👁️ Physical Assessment Concerns</h4> <ul>" ++
      String.join (((a.physical_flags).getD []).map fun flag =>
        "<li class=\"physical-flag\">" ++ flag ++ "</li>") ++
      "</ul> </div>"
  else ""

/-- The assessment-basis badge of the triage analysis. -/
def triageBasis (a : TriageAnalysis) : String :=
  if truthyS a.assessment_basis then
    "<div class=\"assessment-basis\"> <span class=\"basis-badge\">📋 Based on: " ++
      jstr a.assessment_basis ++ "</span> </div>"
  else ""

/-- Embedding of `buildTriageAnalysis(analysis)`. -/
def buildTriageAnalysis : Option TriageAnalysis → String
  | none => "<p class=\"no-data\">No analysis available</p>"
  | some a =>
    triagePriorityBadge a ++ triageJustEn a ++ triageJustHi a ++
      triageAction a ++ triageVitalFlags a ++ triagePhysFlags a ++ triageBasis a

/-- Embedding of `buildTriageResults(result)`. -/
def buildTriageResults (r : Payload) : String :=
  "<div class=\"result-item\"> <div class=\"result-label\">📊 Vitals Extracted</div> <div class=\"result-content\">" ++
    buildVitalsTable r.vitals_extraction ++
    "</div> </div> <div class=\"result-item\"> <div class=\"result-label\">👁️ Physical Assessment</div> <div class=\"result-content\">" ++
    buildPhysicalAssessment r.physical_assessment ++
    "</div> </div> <div class=\"result-item\"> <div class=\"result-label\">🚑 Triage Analysis</div> <div class=\"result-content\">" ++
    buildTriageAnalysis r.triage_analysis ++
    "</div> </div>"

/-- One row of the extracted-tests table: status drives the row class via
a chained ternary with an `unknown` default, and every text field has a
`||` fallback. -/
def testRow (test : LabTest) : String :=
  let statusClass :=
    if test.status = some "Normal" then "normal"
    else if test.status = some "High" then "high"
    else if test.status = some "Low" then "low"
    else "unknown"
  "<div class=\"test-row\"> <span class=\"test-name\">" ++ jOr test.test_name "Unknown" ++
    "</span> <span class=\"test-result\">" ++ jOr test.result "N/A" ++ " " ++ jOr test.unit "" ++
    "</span> <span class=\"test-range\">" ++ jOr test.reference_range "N/A" ++
    "</span> <span class=\"test-status " ++ statusClass ++ "\">" ++ jOr test.status "Unknown" ++
    "</span> </div>"

/-- Embedding of `buildTestsTable(tests)`: absent and empty lists both
yield the no-data placeholder. -/
def buildTestsTable (tests : Option (List LabTest)) : String :=
  if !nonEmptyL tests then
    "<p class=\"no-data\">⚠️ No test data extracted. The image might need better quality or different angle.</p>"
  else
    "<div class=\"tests-table\">" ++
      "<div class=\"test-header\"> <span>Test Name</span> <span>Result</span> <span>Reference Range</span> <span>Status</span> </div>" ++
      String.join ((tests.getD []).map testRow) ++
      "</div>"

/-- One explanation item: `test_name`, `status` and `simple_explanation`
are interpolated unguarded (an absent value renders as "undefined"), the
status class applies optional chaining plus `toLowerCase`, and the
analogy line is guarded by truthiness. -/
def explanationItem (exp : Explanation) : String :=
  let statusIcon :=
    if exp.status = some "Normal" then "✅"
    else if exp.status = some "Concerning" then "⚠️"
    else "❓"
  let statusClass :=
    match exp.status with
    | some s => s.toLower
    | none => "undefined"
  "<div class=\"explanation-item\"> <div class=\"exp-header\"> <span class=\"exp-test-name\">" ++
    statusIcon ++ " " ++ jstr exp.test_name ++
    "</span> <span class=\"exp-status " ++ statusClass ++ "\">" ++ jstr exp.status ++
    "</span> </div> <p class=\"exp-description\">" ++ jstr exp.simple_explanation ++ "</p> " ++
    (if truthyS exp.analogy then
      "<p class=\"exp-analogy\">💡 <em>" ++ jstr exp.analogy ++ "</em></p>"
    else "") ++
    " </div>"

/-- The next-steps block of the patient explanations. -/
def explNextSteps (e : Explanations) : String :=
  if nonEmptyL e.next_steps then
    "<div class=\"next-steps\"> <h4>📋 Next Steps</h4> <ul>" ++
      String.join (((e.next_steps).getD []).map fun step => "<li>" ++ step ++ "</li>") ++
      "</ul> </div>"
  else ""

/-- The warning-signs block of the patient explanations. -/
def explWarnings (e : Explanations) : String :=
  if truthyS e.warning_signs then
    "<div class=\"warning-signs\"> <h4>🚨 Warning Signs</h4> <p>" ++
      jstr e.warning_signs ++ "</p> </div>"
  else ""

/-- Embedding of `buildPatientExplanation(explanations)`: the placeholder
is produced when the object or its `explanations` array is absent; an
empty array is truthy in JavaScript and so proceeds to the (empty) loop. -/
def buildPatientExplanation : Option Explanations → String
  | none => "<p class=\"no-data\">No explanations available</p>"
  | some e =>
    match e.explanations with
    | none => "<p class=\"no-data\">No explanations available</p>"
    | some lst =>
      "<div class=\"explanations-list\">" ++
        String.join (lst.map explanationItem) ++
        explNextSteps e ++ explWarnings e ++ "</div>"

/-- Embedding of `buildReportsResults(result)`. -/
def buildReportsResults (r : Payload) : String :=
  "<div class=\"result-item\"> <div class=\"result-label\">🔬 Extracted Tests</div> <div class=\"result-content\">" ++
    buildTestsTable r.extracted_tests ++
    "</div> </div> <div class=\"result-item\"> <div class=\"result-label\">📖 Patient Explanation</div> <div class=\"result-content\">" ++
    buildPatientExplanation r.patient_explanations ++
    "</div> </div>"

/-- The chief-complaints section of the transcribed notes. -/
def notesComplaints (n : Notes) : String :=
  if nonEmptyL n.chief_complaints then
    "<div class=\"notes-section\"> <h4>🩺 Chief Complaints</h4> <ul class=\"complaints-list\">" ++
      String.join (((n.chief_complaints).getD []).map fun c => "<li>" ++ c ++ "</li>") ++
      "</ul> </div>"
  else ""

/-- The illness-duration section of the transcribed notes. -/
def notesDuration (n : Notes) : String :=
  if truthyS n.duration then
    "<div class=\"notes-section\"> <h4>⏳ Duration of Illness</h4> <p class=\"duration-text\">" ++
      jstr n.duration ++ "</p> </div>"
  else ""

/-- The previous-medications section of the transcribed notes. -/
def notesMedications (n : Notes) : String :=
  if nonEmptyL n.previous_medications then
    "<div class=\"notes-section\"> <h4>💊 Previous Medications</h4> <ul class=\"medications-list\">" ++
      String.join (((n.previous_medications).getD []).map fun m => "<li>" ++ m ++ "</li>") ++
      "</ul> </div>"
  else ""

/-- The allergies section of the transcribed notes: the only note section
with an explicit else branch, rendering "No allergies noted". -/
def notesAllergies (n : Notes) : String :=
  if nonEmptyL n.allergies then
    "<div class=\"notes-section\"> <h4>⚠️ Allergies</h4> <ul class=\"allergies-list\">" ++
      String.join (((n.allergies).getD []).map fun a =>
        "<li class=\"allergy-item\">" ++ a ++ "</li>") ++
      "</ul> </div>"
  else
    "<div class=\"notes-section\"> <h4>⚠️ Allergies</h4> <p class=\"no-allergies\">No allergies noted</p> </div>"

/-- The examination-findings section of the transcribed notes. -/
def notesFindings (n : Notes) : String :=
  if nonEmptyL n.examination_findings then
    "<div class=\"notes-section\"> <h4>🔍 Examination Findings</h4> <ul class=\"findings-list\">" ++
      String.join (((n.examination_findings).getD []).map fun f => "<li>" ++ f ++ "</li>") ++
      "</ul> </div>"
  else ""

/-- Embedding of `buildTranscribedNotes(notes)`. -/
def buildTranscribedNotes : Option Notes → String
  | none => "<p class=\"no-data\">No notes transcribed</p>"
  | some n =>
    "<div class=\"notes-sections\">" ++
      notesComplaints n ++ notesDuration n ++ notesMedications n ++
      notesAllergies n ++ notesFindings n ++ "</div>"

/-- The key-points section of the executive summary. -/
def summaryPoints (s : Summary) : String :=
  if nonEmptyL s.executive_summary then
    "<div class=\"summary-points\"> <h4>📌 Key Points</h4> <ol class=\"summary-list\">" ++
      String.join (((s.executive_summary).getD []).map fun p =>
        "<li class=\"summary-point\">" ++ p ++ "</li>") ++
      "</ol> </div>"
  else ""

/-- The critical-flags section of the executive summary. -/
def summaryFlags (s : Summary) : String :=
  if nonEmptyL s.critical_flags then
    "<div class=\"critical-flags\"> <h4>🚨 Critical Flags</h4> <ul class=\"flags-list\">" ++
      String.join (((s.critical_flags).getD []).map fun f =>
        "<li class=\"flag-item\">" ++ f ++ "</li>") ++
      "</ul> </div>"
  else ""

/-- The doctor-focus-time badge of the executive summary. -/
def summaryFocusTime (s : Summary) : String :=
  if truthyS s.doctor_focus_time then
    "<div class=\"focus-time\"> <span class=\"time-badge\">⏱️ " ++
      jstr s.doctor_focus_time ++ "</span> </div>"
  else ""

/-- Embedding of `buildExecutiveSummary(summary)`. -/
def buildExecutiveSummary : Option Summary → String
  | none => "<p class=\"no-data\">No executive summary available</p>"
  | some s =>
    "<div class=\"executive-summary\">" ++
      summaryPoints s ++ summaryFlags s ++ summaryFocusTime s ++ "</div>"

/-- Embedding of `buildScribeResults(result)`. -/
def buildScribeResults (r : Payload) : String :=
  "<div class=\"result-item\"> <div class=\"result-label\">✍️ Transcribed Notes</div> <div class=\"result-content\">" ++
    buildTranscribedNotes r.transcribed_notes ++
    "</div> </div> <div class=\"result-item\"> <div class=\"result-label\">📋 Executive Summary</div> <div class=\"result-content\">" ++
    buildExecutiveSummary r.doctor_summary ++
    "</div> </div>"

/-- Interpolation of `JSON.stringify(x, null, 2)` for a possibly-absent
value: `JSON.stringify(undefined)` is `undefined`, which the template
literal renders as "undefined". -/
def jsonText : Option JsonBlob → String
  | some b => b.stringified
  | none => "undefined"

/-- Embedding of `buildTranslatorResults(result)`. -/
def buildTranslatorResults (r : Payload) : String :=
  "<div class=\"result-item\"> <div class=\"result-label\">🌐 Translation</div> <div class=\"result-value\"> <pre>" ++
    jsonText r.translation ++
    "</pre> </div> </div> <div class=\"result-item\"> <div class=\"result-label\">✔️ Validation</div> <div class=\"result-value\"> <pre>" ++
    jsonText r.validation ++
    "</pre> </div> </div>"

/-- One medicine card: the four name/strength/form fields fall back to
the literal "[Unclear]" via `||`, while the frequency line is guarded by
truthiness and omitted entirely when absent. -/
def medicineCard (med : Medicine) : String :=
  "<div class=\"medicine-card\"> <div class=\"med-header\"> <span class=\"brand-name\">" ++
    jOr med.brand_name "[Unclear]" ++
    "</span> <span class=\"generic-name\">" ++ jOr med.generic_name "[Unclear]" ++
    "</span> </div> <div class=\"med-details\"> <span class=\"strength\">💪 " ++
    jOr med.strength "[Unclear]" ++
    "</span> <span class=\"form\">💊 " ++ jOr med.form "[Unclear]" ++ "</span> " ++
    (if truthyS med.frequency then
      "<span class=\"frequency\">⏰ " ++ jstr med.frequency ++ "</span>"
    else "") ++
    " </div> </div>"

/-- Embedding of `buildMedicinesList(medicines)`. -/
def buildMedicinesList (medicines : Option (List Medicine)) : String :=
  if !nonEmptyL medicines then
    "<p class=\"no-data\">⚠️ No medicines detected. Please ensure images show medicine strips or prescriptions clearly.</p>"
  else
    "<div class=\"medicines-grid\">" ++
      String.join ((medicines.getD []).map medicineCard) ++
      "</div>"

/-- The urgency badge of the safety analysis. -/
def safetyUrgencyBadge (a : SafetyAnalysis) : String :=
  let urgencyClass :=
    if a.urgency = some "High" then "danger"
    else if a.urgency = some "Medium" then "warning"
    else if a.urgency = some "Low" then "success"
    else "info"
  let urgencyIcon :=
    if a.urgency = some "High" then "🔴"
    else if a.urgency = some "Medium" then "🟡"
    else if a.urgency = some "Low" then "🟢"
    else "💙"
  "<div class=\"urgency-badge " ++ urgencyClass ++ "\"> <span class=\"urgency-icon\">" ++
    urgencyIcon ++ "</span> <span class=\"urgency-text\">" ++
    jOr a.urgency "Unknown" ++ " Urgency</span> </div>"

/-- The drug-interactions section of the safety analysis. -/
def safetyInteractions (a : SafetyAnalysis) : String :=
  if nonEmptyL a.drug_interactions then
    "<div class=\"interactions-section\"> <h4>⚠️ Drug Interactions</h4> <ul class=\"interactions-list\">" ++
      String.join (((a.drug_interactions).getD []).map fun x =>
        "<li class=\"interaction-item\">" ++ x ++ "</li>") ++
      "</ul> </div>"
  else ""

/-- The duplicate-medications section of the safety analysis. -/
def safetyDuplicates (a : SafetyAnalysis) : String :=
  if nonEmptyL a.duplicate_medications then
    "<div class=\"duplicates-section\"> <h4>🔄 Duplicate Medications</h4> <ul class=\"duplicates-list\">" ++
      String.join (((a.duplicate_medications).getD []).map fun x =>
        "<li class=\"duplicate-item\">" ++ x ++ "</li>") ++
      "</ul> </div>"
  else ""

/-- The safety-warnings section of the safety analysis. -/
def safetyWarningsSec (a : SafetyAnalysis) : String :=
  if nonEmptyL a.safety_warnings then
    "<div class=\"warnings-section\"> <h4>🚨 Safety Warnings</h4> <ul class=\"warnings-list\">" ++
      String.join (((a.safety_warnings).getD []).map fun x =>
        "<li class=\"warning-item\">" ++ x ++ "</li>") ++
      "</ul> </div>"
  else ""

/-- The pharmacist-recommendation box of the safety analysis. -/
def safetyRecommendationBox (a : SafetyAnalysis) : String :=
  if truthyS a.recommendation then
    "<div class=\"recommendation-box\"> <h4>💡 Pharmacist Recommendation</h4> <p>" ++
      jstr a.recommendation ++ "</p> </div>"
  else ""

/-- Embedding of `buildSafetyAnalysis(analysis)`. -/
def buildSafetyAnalysis : Option SafetyAnalysis → String
  | none => "<p class=\"no-data\">No safety analysis available</p>"
  | some a =>
    safetyUrgencyBadge a ++ safetyInteractions a ++ safetyDuplicates a ++
      safetyWarningsSec a ++ safetyRecommendationBox a

/-- Embedding of `buildPolypharmacyResults(result)`. -/
def buildPolypharmacyResults (r : Payload) : String :=
  "<div class=\"result-item\"> <div class=\"result-label\">💊 Medicines Detected</div> <div class=\"result-content\">" ++
    buildMedicinesList r.medicines_extracted ++
    "</div> </div> <div class=\"result-item\"> <div class=\"result-label\">⚠️ Safety Analysis</div> <div class=\"result-content\">" ++
    buildSafetyAnalysis r.safety_analysis ++
    "</div> </div>"

/-- Embedding of `displayResults(tab, result)`: when the top-level status
is not the success marker, only the single error paragraph is produced
(with the `||` fallback to "Unknown error"); otherwise the tab-specific
builder runs. -/
def displayResults (tab : Tab) (r : Payload) : String :=
  if r.status ≠ some "success" then
    "<p class=\"result-error\">Error: " ++ jOr r.error "Unknown error" ++ "</p>"
  else
    match tab with
    | Tab.triage => buildTriageResults r
    | Tab.reports => buildReportsResults r
    | Tab.scribe => buildScribeResults r
    | Tab.translator => buildTranslatorResults r
    | Tab.polypharmacy => buildPolypharmacyResults r

/-- The endpoint path chosen by the `switch (tab)` of `processTab`. -/
def endpointFor : Tab → String
  | Tab.triage => "/triage/process"
  | Tab.reports => "/reports/process"
  | Tab.scribe => "/scribe/process"
  | Tab.translator => "/translator/process"
  | Tab.polypharmacy => "/polypharmacy/process"

/-- The multipart request `processTab` assembles: every staged file plus
the current session identifier, aimed at the tab-specific endpoint. -/
structure SubmitRequest where
  endpoint : String
  files : List JsFile
  session : Option String
deriving DecidableEq, Repr

/-- The outcome of the single `fetch` + `response.json()` of `processTab`,
as seen from the JavaScript code: a parsed body with `response.ok`, a
non-success HTTP status (which the code turns into a thrown
`Server error: <status>`), or a thrown transport/parse error. -/
inductive FetchOutcome where
  | ok : Payload → FetchOutcome
  | httpError : Nat → FetchOutcome
  | transportFail : String → FetchOutcome
deriving Repr

/-- The normalized outcome of one submission. -/
inductive SubmissionResult where
  | success : Payload → SubmissionResult
  | failure : String → SubmissionResult
deriving Repr

/-- Everything observable about one `processTab(tab)` run: its normalized
result, the toasts shown, the `showLoading` calls in order (`true` =
enable overlay, `false` = disable), the request sent (if any), and the
rendered results HTML (if any). -/
structure ProcessOutput where
  result : SubmissionResult
  toasts : List Toast
  loadingEvents : List Bool
  request : Option SubmitRequest
  rendered : Option String

/-- Embedding of `async function processTab(tab)` over an explicit fetch
outcome.  An empty staged set returns before the loading overlay is ever
enabled; otherwise the overlay is enabled, the request is issued, and the
`finally` block disables the overlay on every path.  A non-ok response is
thrown as `Server error: <status>` and lands in the same catch as a
transport error, producing an `Error: <message>` toast. -/
def processTab (tab : Tab) (session : Option String) (st : TabState)
    (outcome : FetchOutcome) : ProcessOutput :=
  if st.files.length == 0 then
    { result := SubmissionResult.failure "No files selected",
      toasts := [("No files selected", "error")],
      loadingEvents := [], request := none, rendered := none }
  else
    let req : SubmitRequest :=
      { endpoint := endpointFor tab, files := st.files, session := session }
    match outcome with
    | FetchOutcome.ok body =>
      { result := SubmissionResult.success body,
        toasts := [("Processing completed successfully", "success")],
        loadingEvents := [true, false], request := some req,
        rendered := some (displayResults tab body) }
    | FetchOutcome.httpError status =>
      let msg := "Server error: " ++ toString status
      { result := SubmissionResult.failure msg,
        toasts := [("Error: " ++ msg, "error")],
        loadingEvents := [true, false], request := some req, rendered := none }
    | FetchOutcome.transportFail msg =>
      { result := SubmissionResult.failure msg,
        toasts := [("Error: " ++ msg, "error")],
        loadingEvents := [true, false], request := some req, rendered := none }

/-- A string field that the `x || d` idiom treats as falsy is replaced by
the default. -/
theorem jOr_of_falsy {x : Option String} (d : String) (h : truthyS x = false) :
    jOr x d = d := by
  cases x with
  | none => rfl
  | some s =>
    simp only [truthyS, Bool.not_eq_false'] at h
    simp [jOr, h]

/-- A string field that the `x || d` idiom treats as truthy is kept. -/
theorem jOr_of_truthy {x : Option String} {s : String} (d : String)
    (hx : x = some s) (h : s ≠ "") : jOr x d = s := by
  subst hx
  simp [jOr, h]

/-- C2 counterexample: `handleFileSelect` with an empty candidate list
emits no toast at all — the rejection is silent, contradicting the
claimed user-visible rejection notice for empty selections. -/
theorem select_empty_emits_no_notice_cex :
    (handleFileSelect Tab.triage { files := [], processDisabled := true } []).2 = []
      ∧ (handleFileSelect Tab.triage { files := [], processDisabled := true } []).1
          = { files := [], processDisabled := true } := by
  constructor <;> rfl

/-- C2 (amended): an empty or over-limit candidate list leaves the tab
state (staged set and button) unchanged; the over-limit case emits the
error toast naming the limit, while the empty case emits nothing. -/
theorem select_reject_behaviour (tab : Tab) (st : TabState) (f : List JsFile)
    (h : f.length = 0 ∨ f.length > maxFilesFor tab) :
    (handleFileSelect tab st f).1 = st ∧
      (handleFileSelect tab st f).2 =
        (if f.length = 0 then []
         else [("Maximum " ++ toString (maxFilesFor tab) ++ " file(s) allowed", "error")]) := by
  rcases h with h | h
  · simp [handleFileSelect, h]
  · have h0 : f.length ≠ 0 := by
      have : 0 < maxFilesFor tab := by
        unfold maxFilesFor; split <;> norm_num
      omega
    simp [handleFileSelect, h0, h]

/-- C2 witness: a two-file selection on the translator tab (limit 1) is
rejected with the toast, leaving the state unchanged. -/
theorem select_reject_behaviour_witness :
    ([JsFile.mk "a.png" "image/png", JsFile.mk "b.txt" "text/plain"].length = 0
        ∨ [JsFile.mk "a.png" "image/png", JsFile.mk "b.txt" "text/plain"].length
            > maxFilesFor Tab.translator) ∧
      ((handleFileSelect Tab.translator { files := [], processDisabled := true }
          [JsFile.mk "a.png" "image/png", JsFile.mk "b.txt" "text/plain"]).1
        = { files := [], processDisabled := true } ∧
      (handleFileSelect Tab.translator { files := [], processDisabled := true }
          [JsFile.mk "a.png" "image/png", JsFile.mk "b.txt" "text/plain"]).2 =
        (if ([JsFile.mk "a.png" "image/png", JsFile.mk "b.txt" "text/plain"] :
              List JsFile).length = 0 then []
         else [("Maximum " ++ toString (maxFilesFor Tab.translator) ++ " file(s) allowed",
                "error")])) :=
  ⟨by decide,
   select_reject_behaviour Tab.translator { files := [], processDisabled := true }
     [JsFile.mk "a.png" "image/png", JsFile.mk "b.txt" "text/plain"] (by decide)⟩

/-- C4: an accepted selection (non-empty, within the limit) replaces the
staged set with exactly the image-typed subsequence of the candidate
list, in order, regardless of what was staged before. -/
theorem select_stages_image_subsequence (tab : Tab) (st : TabState)
    (f : List JsFile) (h1 : f.length ≠ 0) (h2 : ¬ f.length > maxFilesFor tab) :
    (handleFileSelect tab st f).1.files = f.filter isImage := by
  simp only [handleFileSelect, beq_iff_eq, h1, if_false, h2]
  split <;> rfl

/-- C4 witness: a mixed list of images and a text file on the reports tab
stages exactly the two images, in order. -/
theorem select_stages_image_subsequence_witness :
    ([JsFile.mk "a.png" "image/png", JsFile.mk "b.txt" "text/plain",
        JsFile.mk "c.jpg" "image/jpeg"].length ≠ 0) ∧
    (¬ ([JsFile.mk "a.png" "image/png", JsFile.mk "b.txt" "text/plain",
        JsFile.mk "c.jpg" "image/jpeg"] : List JsFile).length > maxFilesFor Tab.reports) ∧
    (handleFileSelect Tab.reports
        { files := [JsFile.mk "old.png" "image/png"], processDisabled := false }
        [JsFile.mk "a.png" "image/png", JsFile.mk "b.txt" "text/plain",
          JsFile.mk "c.jpg" "image/jpeg"]).1.files =
      [JsFile.mk "a.png" "image/png", JsFile.mk "b.txt" "text/plain",
        JsFile.mk "c.jpg" "image/jpeg"].filter isImage :=
  ⟨by decide, by decide,
   select_stages_image_subsequence Tab.reports
     { files := [JsFile.mk "old.png" "image/png"], processDisabled := false }
     [JsFile.mk "a.png" "image/png", JsFile.mk "b.txt" "text/plain",
       JsFile.mk "c.jpg" "image/jpeg"] (by decide) (by decide)⟩

/-- C5 counterexample: with the submit button currently enabled, an
accepted selection whose image-typed subset is empty stages nothing yet
leaves the button enabled — `handleFileSelect` never disables it. -/
theorem select_empty_result_leaves_button_cex :
    (handleFileSelect Tab.triage
        { files := [JsFile.mk "old.png" "image/png"], processDisabled := false }
        [JsFile.mk "b.txt" "text/plain"]).1.files = [] ∧
      (handleFileSelect Tab.triage
        { files := [JsFile.mk "old.png" "image/png"], processDisabled := false }
        [JsFile.mk "b.txt" "text/plain"]).1.processDisabled = false ∧
      (handleFileSelect Tab.triage
        { files := [JsFile.mk "old.png" "image/png"], processDisabled := false }
        [JsFile.mk "b.txt" "text/plain"]).2 = [] := by
  refine ⟨?_, ?_, ?_⟩ <;> decide

/-- C5 (amended): after an accepted selection the submit button is
enabled when the resulting staged set is non-empty; when the image-typed
subset is empty the button state is simply left as it was (it is never
disabled here), and the staged set still becomes empty. -/
theorem select_button_enablement (tab : Tab) (st : TabState) (f : List JsFile)
    (h1 : f.length ≠ 0) (h2 : ¬ f.length > maxFilesFor tab) :
    (f.filter isImage ≠ [] →
        (handleFileSelect tab st f).1.processDisabled = false) ∧
      (f.filter isImage = [] →
        (handleFileSelect tab st f).1.processDisabled = st.processDisabled ∧
          (handleFileSelect tab st f).1.files = []) := by
  simp only [handleFileSelect, beq_iff_eq, h1, if_false, h2]
  constructor
  · intro hne
    have : (f.filter isImage).length > 0 := by
      cases hf : f.filter isImage with
      | nil => exact absurd hf hne
      | cons a l => simp
    simp [this]
  · intro he
    simp [he]

/-- C5 witness: selecting a single text file after an image was staged
keeps the button enabled while emptying the staged set. -/
theorem select_button_enablement_witness :
    (([JsFile.mk "b.txt" "text/plain"] : List JsFile).length ≠ 0) ∧
    (¬ ([JsFile.mk "b.txt" "text/plain"] : List JsFile).length > maxFilesFor Tab.triage) ∧
    (([JsFile.mk "b.txt" "text/plain"] : List JsFile).filter isImage = [] →
      (handleFileSelect Tab.triage
          { files := [JsFile.mk "old.png" "image/png"], processDisabled := false }
          [JsFile.mk "b.txt" "text/plain"]).1.processDisabled =
        ({ files := [JsFile.mk "old.png" "image/png"], processDisabled := false }
          : TabState).processDisabled ∧
      (handleFileSelect Tab.triage
          { files := [JsFile.mk "old.png" "image/png"], processDisabled := false }
          [JsFile.mk "b.txt" "text/plain"]).1.files = []) :=
  ⟨by decide, by decide,
   (select_button_enablement Tab.triage
     { files := [JsFile.mk "old.png" "image/png"], processDisabled := false }
     [JsFile.mk "b.txt" "text/plain"] (by decide) (by decide)).2⟩

/-- The staged list after `removeFile` is always the spliced list,
whichever branch the emptiness check takes. -/
theorem removeFile_files (st : TabState) (i : Int) :
    (removeFile st i).files = spliceRemoveOne st.files i := by
  cases hc : (spliceRemoveOne st.files i).length == 0 <;> simp [removeFile, hc]

/-- C6 counterexample: `removeFile` with index `-1` on a two-element
staged set is not a no-op — `splice(-1, 1)` removes the last element. -/
theorem removeFile_negative_index_cex :
    (removeFile
        { files := [JsFile.mk "a.png" "image/png", JsFile.mk "b.png" "image/png"],
          processDisabled := false } (-1)).files ≠
      [JsFile.mk "a.png" "image/png", JsFile.mk "b.png" "image/png"] := by
  decide

/-- C6 (amended): `removeFile` is a silent no-op for any index at or past
the end of the staged set, but a negative index follows JavaScript splice
semantics and removes the element at position `max(length + i, 0)`, so on
a non-empty set it shrinks the set by one. -/
theorem removeFile_bounds (st : TabState) (i : Int) :
    ((st.files.length : Int) ≤ i → (removeFile st i).files = st.files) ∧
      (i < 0 → st.files ≠ [] →
        (removeFile st i).files.length + 1 = st.files.length) := by
  constructor
  · intro h
    have hi : ¬ i < 0 := by omega
    have hlen : st.files.length ≤ i.toNat := by omega
    rw [removeFile_files]
    unfold spliceRemoveOne spliceStart
    simp only [hi, if_false]
    rw [min_eq_right hlen, List.take_of_length_le (le_refl _),
      List.drop_eq_nil_of_le (by omega), List.append_nil]
  · intro hi hne
    have hlen : 0 < st.files.length := List.length_pos.mpr hne
    have hs : (max ((st.files.length : Int) + i) 0).toNat < st.files.length := by
      rcases max_cases ((st.files.length : Int) + i) 0 with ⟨heq, _⟩ | ⟨heq, _⟩ <;>
        rw [heq] <;> omega
    rw [removeFile_files]
    unfold spliceRemoveOne spliceStart
    simp only [hi, if_true]
    simp only [List.length_append, List.length_take, List.length_drop]
    omega

/-- C6 witness: index 5 on a singleton staged set leaves it unchanged. -/
theorem removeFile_bounds_witness :
    ((([JsFile.mk "a.png" "image/png"] : List JsFile).length : Int) ≤ 5 ∧
      (removeFile
          { files := [JsFile.mk "a.png" "image/png"], processDisabled := false }
          5).files = [JsFile.mk "a.png" "image/png"]) :=
  ⟨by decide,
   (removeFile_bounds
     { files := [JsFile.mk "a.png" "image/png"], processDisabled := false } 5).1
     (by decide)⟩

/-- C9: the over-limit check fires on the raw candidate list, before the
image filter runs, so any list longer than the limit is rejected (state
unchanged, toast emitted) no matter how few of its members are images. -/
theorem overlimit_checked_before_filter (tab : Tab) (st : TabState)
    (f : List JsFile) (h : f.length > maxFilesFor tab) :
    (handleFileSelect tab st f).1 = st ∧ (handleFileSelect tab st f).2 ≠ [] := by
  have h0 : f.length ≠ 0 := by
    have : 0 < maxFilesFor tab := by
      unfold maxFilesFor; split <;> norm_num
    omega
  simp [handleFileSelect, h0, h]

/-- C9 witness: two files, only one of them an image, on the translator
tab (limit 1): the raw count 2 exceeds the limit even though the image
subset fits, and the selection is rejected. -/
theorem overlimit_checked_before_filter_witness :
    ([JsFile.mk "a.png" "image/png", JsFile.mk "b.txt" "text/plain"].length
        > maxFilesFor Tab.translator) ∧
    (([JsFile.mk "a.png" "image/png", JsFile.mk "b.txt" "text/plain"].filter
        isImage).length ≤ maxFilesFor Tab.translator) ∧
    ((handleFileSelect Tab.translator
        { files := [], processDisabled := true }
        [JsFile.mk "a.png" "image/png", JsFile.mk "b.txt" "text/plain"]).1 =
      { files := [], processDisabled := true } ∧
      (handleFileSelect Tab.translator
        { files := [], processDisabled := true }
        [JsFile.mk "a.png" "image/png", JsFile.mk "b.txt" "text/plain"]).2 ≠ []) :=
  ⟨by decide, by decide,
   overlimit_checked_before_filter Tab.translator
     { files := [], processDisabled := true }
     [JsFile.mk "a.png" "image/png", JsFile.mk "b.txt" "text/plain"] (by decide)⟩

/-- C3: with a non-empty staged set, a non-success HTTP status makes the
submission resolve to `Failure` carrying the status, shows exactly one
error toast whose message contains the status, and the loading overlay is
enabled once and disabled exactly once; moreover every fetch outcome
(success, HTTP failure, transport exception) produces the same
enable-then-disable overlay bracket. -/
theorem processTab_http_failure (tab : Tab) (session : Option String)
    (st : TabState) (status : Nat) (h : st.files ≠ []) :
    (processTab tab session st (FetchOutcome.httpError status)).result
        = SubmissionResult.failure ("Server error: " ++ toString status) ∧
      (processTab tab session st (FetchOutcome.httpError status)).toasts
        = [("Error: " ++ ("Server error: " ++ toString status), "error")] ∧
      occursIn (toString status) ("Error: " ++ ("Server error: " ++ toString status)) ∧
      (processTab tab session st (FetchOutcome.httpError status)).loadingEvents.count false
        = 1 ∧
      (∀ outcome : FetchOutcome,
        (processTab tab session st outcome).loadingEvents = [true, false]) := by
  have h0 : (st.files.length == 0) = false := by
    simp [List.length_eq_zero, h]
  refine ⟨?_, ?_, ?_, ?_, ?_⟩
  · simp [processTab, h0]
  · simp [processTab, h0]
  · exact occursIn_appendL _ (occursIn_appendL _ (occursIn_self _))
  · simp [processTab, h0]
  · intro outcome
    cases outcome <;> simp [processTab, h0]

/-- C3 witness: one staged image and a 500 response on the triage tab. -/
theorem processTab_http_failure_witness :
    (([JsFile.mk "a.png" "image/png"] : List JsFile) ≠ []) ∧
    (processTab Tab.triage (some "sess")
        { files := [JsFile.mk "a.png" "image/png"], processDisabled := false }
        (FetchOutcome.httpError 500)).result
      = SubmissionResult.failure ("Server error: " ++ toString 500) :=
  ⟨by decide,
   (processTab_http_failure Tab.triage (some "sess")
     { files := [JsFile.mk "a.png" "image/png"], processDisabled := false }
     500 (by decide)).1⟩

/-- C8: when the top-level status is not the success marker, the rendered
output is exactly one error paragraph — no workflow-specific rendering —
and it contains the embedded error message, with "Unknown error"
substituted when no message is present. -/
theorem displayResults_error_block (tab : Tab) (r : Payload)
    (h : r.status ≠ some "success") :
    displayResults tab r =
        "<p class=\"result-error\">Error: " ++ jOr r.error "Unknown error" ++ "</p>" ∧
      occursIn (jOr r.error "Unknown error") (displayResults tab r) ∧
      (r.error = none → occursIn "Unknown error" (displayResults tab r)) := by
  have e : displayResults tab r =
      "<p class=\"result-error\">Error: " ++ jOr r.error "Unknown error" ++ "</p>" := by
    simp [displayResults, h]
  refine ⟨e, ?_, ?_⟩
  · rw [e]; exact occursIn_middle _ _ _
  · intro he
    rw [e, he]
    exact occursIn_middle _ _ _

/-- C8 witness: a failed payload with an embedded message renders the
single error block carrying that message. -/
theorem displayResults_error_block_witness :
    (({ status := some "failed", error := some "model offline" } : Payload).status
        ≠ some "success") ∧
    displayResults Tab.reports { status := some "failed", error := some "model offline" }
      = "<p class=\"result-error\">Error: " ++
          jOr (some "model offline") "Unknown error" ++ "</p>" :=
  ⟨by decide,
   (displayResults_error_block Tab.reports
     { status := some "failed", error := some "model offline" } (by decide)).1⟩

/-- A pattern occurring in the accumulator still occurs after folding
further strings onto it. -/
theorem occursIn_foldl_acc {pat : String} (l : List String) {acc : String}
    (h : occursIn pat acc) : occursIn pat (l.foldl (fun r s => r ++ s) acc) := by
  induction l generalizing acc with
  | nil => exact h
  | cons x xs ih => exact ih (occursIn_appendR x h)

/-- A pattern occurring in some element of the list occurs in the fold. -/
theorem occursIn_foldl_of_mem {pat x : String} (l : List String) (acc : String)
    (hx : x ∈ l) (h : occursIn pat x) :
    occursIn pat (l.foldl (fun r s => r ++ s) acc) := by
  induction l generalizing acc with
  | nil => cases hx
  | cons y ys ih =>
    rcases List.mem_cons.mp hx with rfl | hx2
    · exact occursIn_foldl_acc ys (occursIn_appendL acc h)
    · exact ih (acc ++ y) hx2

/-- A pattern occurring in some element of the list occurs in the joined
string. -/
theorem occursIn_join_of_mem {pat x : String} {l : List String}
    (hx : x ∈ l) (h : occursIn pat x) : occursIn pat (String.join l) :=
  occursIn_foldl_of_mem l "" hx h

/-- The triage scenario payload of the specification: success status,
pulse 110, `bp` explicitly null, SpO2 94, temperature 38.2, priority RED
with an English justification. -/
def triageScenarioPayload : Payload :=
  { status := some "success",
    vitals_extraction := some
      { pulse := JsOpt.val "110", bp := JsOpt.null,
        spo2 := JsOpt.val "94", temperature := JsOpt.val "38.2" },
    triage_analysis := some
      { priority := some "RED",
        justification_english := some "Tachycardia with hypoxia" } }

set_option maxRecDepth 40000 in
/-- C7: rendering the specification's triage scenario payload yields a
danger-styled priority badge reading "RED Priority", a pulse entry
"110 bpm", a blood-pressure entry "Not recorded", and the English
justification text. -/
theorem triage_scenario_rendering :
    strContains (displayResults Tab.triage triageScenarioPayload)
        "<div class=\"priority-badge danger\">" = true ∧
      strContains (displayResults Tab.triage triageScenarioPayload)
        "RED Priority" = true ∧
      strContains (displayResults Tab.triage triageScenarioPayload)
        "110 bpm" = true ∧
      strContains (displayResults Tab.triage triageScenarioPayload)
        "Not recorded" = true ∧
      strContains (displayResults Tab.triage triageScenarioPayload)
        "Tachycardia with hypoxia" = true := by
  refine ⟨?_, ?_, ?_, ?_, ?_⟩ <;> decide

/-- C1 counterexample: a success triage analysis carrying only a priority
renders no placeholder for its absent justification, recommended action,
flags or basis — those sections are silently omitted, so the output
contains none of the designated placeholder strings and no justification
block at all. -/
theorem triage_justification_omitted_cex :
    (({ priority := some "RED" } : TriageAnalysis).justification_english = none) ∧
      strContains (buildTriageAnalysis (some { priority := some "RED" }))
        "no data" = false ∧
      strContains (buildTriageAnalysis (some { priority := some "RED" }))
        "No data" = false ∧
      strContains (buildTriageAnalysis (some { priority := some "RED" }))
        "Not recorded" = false ∧
      strContains (buildTriageAnalysis (some { priority := some "RED" }))
        "[Unclear]" = false ∧
      strContains (buildTriageAnalysis (some { priority := some "RED" }))
        "justification" = false := by
  refine ⟨rfl, ?_, ?_, ?_, ?_, ?_⟩ <;> decide

/-- C1 (amended): absent top-level section objects always render their
explicit no-data placeholder; an absent or null vitals entry renders
"Not recorded"; a falsy medicine brand name renders "[Unclear]"; but
optional leaf sections such as the English justification are silently
omitted (contribute the empty string) when absent, rather than rendering
a placeholder. -/
theorem placeholder_partial_law (v : Vitals) (a : TriageAnalysis)
    (m : Medicine) (rest : List Medicine)
    (hv : v.bp = JsOpt.null ∨ v.bp = JsOpt.undef)
    (ha : truthyS a.justification_english = false)
    (hm : truthyS m.brand_name = false) :
    buildVitalsTable none = "<p class=\"no-data\">No vitals extracted</p>" ∧
      buildPhysicalAssessment none
          = "<p class=\"no-data\">No physical assessment available</p>" ∧
      buildTriageAnalysis none = "<p class=\"no-data\">No analysis available</p>" ∧
      occursIn "Not recorded" (buildVitalsTable (some v)) ∧
      occursIn "[Unclear]" (buildMedicinesList (some (m :: rest))) ∧
      triageJustEn a = "" := by
  refine ⟨rfl, rfl, rfl, ?_, ?_, ?_⟩
  · have hb : occursIn "Not recorded" (vitalItem "🩺 Blood Pressure" "mmHg" v.bp) := by
      rcases hv with hv | hv <;> rw [hv] <;> exact occursIn_middle _ _ _
    show occursIn "Not recorded" (buildVitalsTable (some v))
    unfold buildVitalsTable
    exact occursIn_appendR _ (occursIn_appendR _ (occursIn_appendR _
      (occursIn_appendR _ (occursIn_appendL _ hb))))
  · have hcard : occursIn "[Unclear]" (medicineCard m) := by
      unfold medicineCard
      rw [jOr_of_falsy _ hm]
      simp only [String.append_assoc]
      exact occursIn_appendL _ (occursIn_appendR _ (occursIn_self _))
    have hjoin : occursIn "[Unclear]" (String.join ((m :: rest).map medicineCard)) :=
      occursIn_join_of_mem (List.mem_map_of_mem _ (List.mem_cons_self m rest)) hcard
    show occursIn "[Unclear]" (buildMedicinesList (some (m :: rest)))
    simp only [buildMedicinesList, nonEmptyL, List.isEmpty_cons, Bool.not_false,
      Bool.not_true, if_neg, ite_false, Option.getD_some]
    exact occursIn_appendR _ (occursIn_appendL _ hjoin)
  · simp [triageJustEn, ha]

/-- C1 witness: a vitals object with null blood pressure, a triage
analysis with no justification, and a medicine with no brand name. -/
theorem placeholder_partial_law_witness :
    (({ bp := JsOpt.null } : Vitals).bp = JsOpt.null ∨
        ({ bp := JsOpt.null } : Vitals).bp = JsOpt.undef) ∧
      truthyS ({} : TriageAnalysis).justification_english = false ∧
      truthyS ({} : Medicine).brand_name = false ∧
      (occursIn "Not recorded" (buildVitalsTable (some { bp := JsOpt.null })) ∧
        triageJustEn {} = "") :=
  ⟨Or.inl rfl, rfl, rfl,
   (placeholder_partial_law { bp := JsOpt.null } {} {} [] (Or.inl rfl) rfl rfl).2.2.2.1,
   (placeholder_partial_law { bp := JsOpt.null } {} {} [] (Or.inl rfl) rfl rfl).2.2.2.2.2⟩

/-- C10: every workflow's renderer interpolates payload string fields
into the produced HTML verbatim, with no escaping or sanitization: for
any success payload and any non-empty string value (HTML markup
included), the full rendered output of `displayResults` contains the
value unchanged — via the English justification for triage, a test name
for reports, the illness duration for scribe, the stringified
translation object for translator, and a brand name for polypharmacy. -/
theorem renderers_interpolate_verbatim (s : String) (hs : s ≠ "")
    (r : Payload) (hst : r.status = some "success") :
    (∀ a : TriageAnalysis, r.triage_analysis = some a →
        a.justification_english = some s →
        occursIn s (displayResults Tab.triage r)) ∧
      (∀ (t : LabTest) (ts : List LabTest), r.extracted_tests = some (t :: ts) →
        t.test_name = some s →
        occursIn s (displayResults Tab.reports r)) ∧
      (∀ n : Notes, r.transcribed_notes = some n →
        n.duration = some s →
        occursIn s (displayResults Tab.scribe r)) ∧
      (∀ b : JsonBlob, r.translation = some b →
        b.stringified = s →
        occursIn s (displayResults Tab.translator r)) ∧
      (∀ (m : Medicine) (rest : List Medicine),
        r.medicines_extracted = some (m :: rest) →
        m.brand_name = some s →
        occursIn s (displayResults Tab.polypharmacy r)) := by
  refine ⟨?_, ?_, ?_, ?_, ?_⟩
  · intro a hta hja
    have hj : occursIn s (triageJustEn a) := by
      unfold triageJustEn
      have ht : truthyS a.justification_english = true := by simp [truthyS, hja, hs]
      rw [ht, hja]
      simp only [jstr, if_true]
      exact occursIn_middle _ _ _
    have hba : occursIn s (buildTriageAnalysis (some a)) := by
      unfold buildTriageAnalysis
      simp only [String.append_assoc]
      exact occursIn_appendL _ (occursIn_appendR _ hj)
    have e : displayResults Tab.triage r = buildTriageResults r := by
      simp [displayResults, hst]
    rw [e]
    unfold buildTriageResults
    rw [hta]
    simp only [String.append_assoc]
    exact occursIn_appendL _ (occursIn_appendL _ (occursIn_appendL _
      (occursIn_appendL _ (occursIn_appendL _ (occursIn_appendR _ hba)))))
  · intro t ts hts htn
    have hrow : occursIn s (testRow t) := by
      unfold testRow
      rw [jOr_of_truthy _ htn hs]
      simp only [String.append_assoc]
      exact occursIn_appendL _ (occursIn_appendR _ (occursIn_self s))
    have hjoin : occursIn s (String.join ((t :: ts).map testRow)) :=
      occursIn_join_of_mem (List.mem_map_of_mem _ (List.mem_cons_self t ts)) hrow
    have htab : occursIn s (buildTestsTable (some (t :: ts))) := by
      simp only [buildTestsTable, nonEmptyL, List.isEmpty_cons, Bool.not_false,
        Bool.not_true, ite_false, Option.getD_some]
      simp only [String.append_assoc]
      exact occursIn_appendL _ (occursIn_appendL _ (occursIn_appendR _ hjoin))
    have e : displayResults Tab.reports r = buildReportsResults r := by
      simp [displayResults, hst]
    rw [e]
    unfold buildReportsResults
    rw [hts]
    simp only [String.append_assoc]
    exact occursIn_appendL _ (occursIn_appendR _ htab)
  · intro n htn hdn
    have ht : truthyS n.duration = true := by simp [truthyS, hdn, hs]
    have hdur : occursIn s (notesDuration n) := by
      unfold notesDuration
      rw [ht, hdn]
      simp only [jstr, if_true]
      exact occursIn_middle _ _ _
    have hnotes : occursIn s (buildTranscribedNotes (some n)) := by
      unfold buildTranscribedNotes
      simp only [String.append_assoc]
      exact occursIn_appendL _ (occursIn_appendL _ (occursIn_appendR _ hdur))
    have e : displayResults Tab.scribe r = buildScribeResults r := by
      simp [displayResults, hst]
    rw [e]
    unfold buildScribeResults
    rw [htn]
    simp only [String.append_assoc]
    exact occursIn_appendL _ (occursIn_appendR _ hnotes)
  · intro b htr hb
    have e : displayResults Tab.translator r = buildTranslatorResults r := by
      simp [displayResults, hst]
    rw [e]
    unfold buildTranslatorResults
    rw [htr]
    simp only [jsonText, hb, String.append_assoc]
    exact occursIn_appendL _ (occursIn_appendR _ (occursIn_self s))
  · intro m rest hmeds hbn
    have hcard : occursIn s (medicineCard m) := by
      unfold medicineCard
      rw [jOr_of_truthy _ hbn hs]
      simp only [String.append_assoc]
      exact occursIn_appendL _ (occursIn_appendR _ (occursIn_self s))
    have hjoin : occursIn s (String.join ((m :: rest).map medicineCard)) :=
      occursIn_join_of_mem (List.mem_map_of_mem _ (List.mem_cons_self m rest)) hcard
    have hml : occursIn s (buildMedicinesList (some (m :: rest))) := by
      simp only [buildMedicinesList, nonEmptyL, List.isEmpty_cons, Bool.not_false,
        Bool.not_true, ite_false, Option.getD_some]
      exact occursIn_appendR _ (occursIn_appendL _ hjoin)
    have e : displayResults Tab.polypharmacy r = buildPolypharmacyResults r := by
      simp [displayResults, hst]
    rw [e]
    unfold buildPolypharmacyResults
    rw [hmeds]
    simp only [String.append_assoc]
    exact occursIn_appendL _ (occursIn_appendR _ hml)

/-- A literal HTML markup string used to probe the renderers. -/
def markupProbe : String := "<img src=x onerror=alert(1)>"

/-- A success payload carrying the markup probe in one string field of
each of the five workflow schemas. -/
def markupProbePayload : Payload :=
  { status := some "success",
    triage_analysis := some { justification_english := some markupProbe },
    extracted_tests := some [{ test_name := some markupProbe }],
    transcribed_notes := some { duration := some markupProbe },
    translation := some { stringified := markupProbe },
    medicines_extracted := some [{ brand_name := some markupProbe }] }

/-- C10 witness: the markup probe appears unchanged in the full rendered
output of every one of the five workflows. -/
theorem renderers_interpolate_verbatim_witness :
    (markupProbe ≠ "") ∧
      markupProbePayload.status = some "success" ∧
      occursIn markupProbe (displayResults Tab.triage markupProbePayload) ∧
      occursIn markupProbe (displayResults Tab.reports markupProbePayload) ∧
      occursIn markupProbe (displayResults Tab.scribe markupProbePayload) ∧
      occursIn markupProbe (displayResults Tab.translator markupProbePayload) ∧
      occursIn markupProbe (displayResults Tab.polypharmacy markupProbePayload) :=
  ⟨by decide, rfl,
   (renderers_interpolate_verbatim markupProbe (by decide)
     markupProbePayload rfl).1 _ rfl rfl,
   (renderers_interpolate_verbatim markupProbe (by decide)
     markupProbePayload rfl).2.1 _ _ rfl rfl,
   (renderers_interpolate_verbatim markupProbe (by decide)
     markupProbePayload rfl).2.2.1 _ rfl rfl,
   (renderers_interpolate_verbatim markupProbe (by decide)
     markupProbePayload rfl).2.2.2.1 _ rfl rfl,
   (renderers_interpolate_verbatim markupProbe (by decide)
     markupProbePayload rfl).2.2.2.2 _ _ rfl rfl⟩
